import Mathlib

/-!
Verification of the Kronk backend's cache / feed-ranking subsystem
(`app/settings/my_redis.py`, `app/community_app/models.py`,
`app/community_app/routes.py`) against its natural-language specification.

The Redis-backed state is embedded shallowly: each key family of the
`CacheManager` keyspace becomes one field of `CacheState`; Redis list,
set, hash and sorted-set commands become pure functions on those fields.
Python floats are modelled as real numbers, the wall clock (`time.time()`)
as an explicit `now` argument.  Loops over Redis sets touch pairwise
distinct keys, so they are modelled as pointwise function updates.
-/

namespace Kronk

/-- The six engagement counters as `scores_getter` returns them:
`(comments, reposts, quotes, likes, dislikes, views)`. -/
abbrev Stats6 := Int × Int × Int × Int × Int × Int

/-- A row of the relational `PostModel` as `CacheManager.create_post`
reads it (the fields of its `post_mapping` besides `author`): `id` is a
`uuid.UUID` (here its hex), `created_at` / `updated_at` / the optional
`scheduled_time` are `datetime`s (here their integer timestamps),
`images` a JSON list, `video` an optional string. -/
structure PostModel where
  id : String
  created_at : Int
  updated_at : Int
  body : String
  scheduled_time : Option Int
  images : List String
  video : Option String
deriving DecidableEq

/-- The `post_meta:{id}` hash `create_post` attempts to write: the
`PostModel` fields plus the author id. -/
structure PostMeta where
  id : String
  created_at : Int
  updated_at : Int
  author : String
  body : String
  scheduled_time : Option Int
  images : List String
  video : Option String
deriving DecidableEq

/-- A Python value as it appears among `create_post`'s `post_mapping`
values: the `uuid.UUID` id, `datetime` timestamps, strings, ints, the
JSON `images` list, or `None`. -/
inductive PyValue where
  | uuid (hex : String)
  | datetime (timestamp : Int)
  | str (s : String)
  | int (n : Int)
  | list (elems : List String)
  | none
deriving DecidableEq

/-- Python truthiness, as the `if v` filter of `create_post`'s dict
comprehension uses it: `None`, the empty string, zero and the empty list
are falsy; `uuid.UUID` and `datetime` objects are always truthy. -/
def pyTruthy : PyValue → Bool
  | .uuid _ => true
  | .datetime _ => true
  | .str s => s != ""
  | .int n => n != 0
  | .list l => !l.isEmpty
  | .none => false

/-- Which argument types redis-py can encode: only bytes, str, int and
float; any other type (`uuid.UUID`, `datetime`, a list, ...) raises
`DataError` during client-side command packing, before anything reaches
the server. -/
def redisEncodable : PyValue → Bool
  | .str _ => true
  | .int _ => true
  | _ => false

/-- An optional `datetime` field as a mapping value. -/
def pyOptDatetime : Option Int → PyValue
  | Option.none => PyValue.none
  | Option.some t => PyValue.datetime t

/-- An optional string field as a mapping value. -/
def pyOptStr : Option String → PyValue
  | Option.none => PyValue.none
  | Option.some s => PyValue.str s

/-- A value the redis client hands back: `bytes` without
`decode_responses`, `str` with it.  The module client `my_redis` is
created with `decode_responses=True` (my_redis.py line 14), so every
reply value is `.str`. -/
inductive RedisReply where
  | bytes (b : String)
  | str (s : String)
deriving DecidableEq

/-- Python's `.decode()`: defined on bytes, an `AttributeError` on str. -/
def pyDecode : RedisReply → Except String String
  | .bytes b => .ok b
  | .str _ => .error "AttributeError: str object has no attribute decode"

/-- A post as `_get_posts` returns it: the metadata dict updated with the
six engagement counters. -/
structure PostView where
  meta : PostMeta
  comments : Int
  reposts : Int
  quotes : Int
  likes : Int
  dislikes : Int
  views : Int
deriving DecidableEq

/-- The cache keyspace of `CacheManager`, one field per key family:
`post_meta:{id}`, `post_stats:{id}`, the `post_timestamp` hash,
`global_timeline` (a sorted set of members with scores),
`home_timeline:{uid}`, `user_timeline:{uid}`, `followers:{uid}`,
`followings:{uid}`, `user_profile:{uid}`, the `profiles` set and the
`usernames` / `emails` index hashes. -/
structure CacheState where
  postMeta : String → Option PostMeta
  postStats : String → String → Option Int
  postTimestamp : String → Option Int
  globalTimeline : List (String × ℝ)
  homeTimelines : String → List String
  userTimelines : String → List String
  followers : String → Finset String
  followings : String → Finset String
  userProfile : String → Option (List (String × String))
  profiles : Finset String
  usernames : String → Option String
  emails : String → Option String

/-! ### Redis primitives -/

/-- Redis `LPUSH` of a single value: prepend. -/
def lpush (l : List String) (x : String) : List String := x :: l

/-- Redis `LRANGE key start stop`: the elements at the inclusive index
range `[start, stop]`, negative indices counting from the end, out-of-range
indices clamped, an inverted range giving `[]`. -/
def lrange (l : List α) (start stop : Int) : List α :=
  let n : Int := l.length
  let s : Int := if start < 0 then max (n + start) 0 else start
  let e : Int := if stop < 0 then n + stop else stop
  if e < s then [] else (l.drop s.toNat).take (e - s + 1).toNat

/-- Redis `LTRIM key start stop`: keep exactly the `LRANGE` slice. -/
def ltrim (l : List α) (start stop : Int) : List α := lrange l start stop

/-- Redis `LREM key 0 value`: remove all occurrences of `value`. -/
def lremAll (l : List String) (x : String) : List String := l.filter (fun y => y ≠ x)

/-- Redis `ZADD key {member: score}`: update the member's score if present,
otherwise append the member. -/
def zadd (l : List (String × ℝ)) (member : String) (score : ℝ) : List (String × ℝ) :=
  if l.any (fun q => q.1 = member) then
    l.map (fun q => if q.1 = member then (member, score) else q)
  else l ++ [(member, score)]

/-- Redis `ZCARD`. -/
def zcard (l : List (String × ℝ)) : Nat := l.length

/-- Redis `ZREM key member`. -/
def zrem (l : List (String × ℝ)) (member : String) : List (String × ℝ) :=
  l.filter (fun q => q.1 ≠ member)

/-- The sorted-set rank order: ascending score, ties broken by the
member string (Redis orders equal-score members lexicographically). -/
def zrankLe (a b : String × ℝ) : Prop := a.2 < b.2 ∨ (a.2 = b.2 ∧ a.1 ≤ b.1)

noncomputable instance : DecidableRel zrankLe := fun a b =>
  inferInstanceAs (Decidable (a.2 < b.2 ∨ (a.2 = b.2 ∧ a.1 ≤ b.1)))

/-- The members of a sorted set in ascending rank order. -/
noncomputable def zsorted (l : List (String × ℝ)) : List (String × ℝ) :=
  List.insertionSort zrankLe l

/-- Redis `ZREMRANGEBYRANK key lo hi`: remove the members whose ascending
rank lies in the inclusive range `[lo, hi]` (negative ranks counting from
the top); the surviving members are returned in rank order. -/
noncomputable def zremrangebyrank (l : List (String × ℝ)) (lo hi : Int) : List (String × ℝ) :=
  let n : Int := l.length
  let s : Int := if lo < 0 then max (n + lo) 0 else lo
  let e : Int := if hi < 0 then n + hi else hi
  if e < s then l else (zsorted l).take s.toNat ++ (zsorted l).drop (e.toNat + 1)

/-- Redis `ZREVRANGE key start stop`: member ids at the inclusive rank
range `[start, stop]` of the descending (highest score first) order. -/
noncomputable def zrevrange (l : List (String × ℝ)) (start stop : Int) : List String :=
  (lrange (zsorted l).reverse start stop).map (fun q => q.1)

/-! ### ScoreModel (`scores_getter`, `calculate_score`) -/

/-- `scores_getter(stats)`: the six counters of a `post_stats` hash, each
defaulting to `0` when the field (or the whole hash) is absent. -/
def scores_getter (stats : String → Option Int) : Stats6 :=
  ((stats "comments").getD 0, (stats "reposts").getD 0, (stats "quotes").getD 0,
    (stats "likes").getD 0, (stats "dislikes").getD 0, (stats "views").getD 0)

/-- `calculate_score(stats, created_at, half_life=36, boost_factor=12)`:
weighted log-scaled engagement times exponential time decay plus a
freshness boost.  `now` stands for the `time.time()` call inside the
function; `created_at` is the integer timestamp cast to a real, and the
`dislikes` component of `scores_getter` is discarded exactly as the
source discards it. -/
noncomputable def calculate_score (stats : String → Option Int) (created_at : ℝ)
    (now : ℝ) (half_life : ℝ) (boost_factor : ℝ) : ℝ :=
  match scores_getter stats with
  | (comments, reposts, quotes, likes, _, views) =>
    let age_hours := (now - created_at) / 3600
    let engagement_score : ℝ :=
      Real.log (1 + (comments : ℝ) * 5 + (reposts : ℝ) * 3 + (quotes : ℝ) * 4
        + (likes : ℝ) * 2 + (views : ℝ) * 0.5)
    let time_decay := Real.exp (-age_hours / half_life)
    let freshness_boost := 10 * Real.exp (-age_hours / boost_factor)
    engagement_score * time_decay + freshness_boost

/-! ### Timeline management (`CacheManager`) -/

/-- `CacheManager._add_post_to_gt(post_id, amount=180)`: record the post's
creation timestamp in the `post_timestamp` hash, then add the member with
score `0` to the global timeline only while it holds fewer than 180
members.  `now` stands for `int(time.time())`. -/
def add_post_to_gt (st : CacheState) (post_id : String) (now : Int) : CacheState :=
  let st1 := { st with postTimestamp := fun p => if p = post_id then some now else st.postTimestamp p }
  if zcard st1.globalTimeline < 180 then
    { st1 with globalTimeline := zadd st1.globalTimeline post_id 0 }
  else st1

/-- `CacheManager.add_post_to_ht(user_id, post_id, start=0, end=59)`:
`LPUSH` onto the follower's home timeline then `LTRIM` to `[0, 59]`. -/
def add_post_to_ht (st : CacheState) (user_id post_id : String) : CacheState :=
  { st with homeTimelines := fun u =>
      if u = user_id then ltrim (lpush (st.homeTimelines u) post_id) 0 59
      else st.homeTimelines u }

/-- `CacheManager.add_post_to_ut(user_id, post_id, start=0, end=4000)`:
`LPUSH` onto the author's own timeline then `LTRIM` to `[0, 4000]`. -/
def add_post_to_ut (st : CacheState) (user_id post_id : String) : CacheState :=
  { st with userTimelines := fun u =>
      if u = user_id then ltrim (lpush (st.userTimelines u) post_id) 0 4000
      else st.userTimelines u }

/-- `CacheManager.get_followers(user_id)`: `SMEMBERS followers:{user_id}`. -/
def get_followers (st : CacheState) (user_id : String) : Finset String :=
  st.followers user_id

/-- `CacheManager.get_following(user_id)`: `SMEMBERS followings:{user_id}`. -/
def get_following (st : CacheState) (user_id : String) : Finset String :=
  st.followings user_id

/-- `CacheManager._get_posts_stats(post_ids)`: one `HGETALL
post_stats:{id}` per id (pipelined), each hash run through
`scores_getter` (an absent hash gives the empty dict, hence zeros). -/
def get_posts_stats (st : CacheState) (post_ids : List String) : List Stats6 :=
  post_ids.map (fun post_id => scores_getter (st.postStats post_id))

/-- `CacheManager._get_posts(post_ids)`: pipeline-fetch each
`post_meta:{id}` hash, keep the non-empty ones in order, fetch the stats
of ALL the requested ids, and zip the surviving metadata dicts with that
stats list positionally (exactly as the source's
`for post, stats in zip(posts, stats_list)` does). -/
def get_posts (st : CacheState) (post_ids : List String) : List PostView :=
  let post_dict_list := post_ids.map st.postMeta
  let posts := post_dict_list.filterMap id
  let stats_list := get_posts_stats st post_ids
  (posts.zip stats_list).map fun ms =>
    match ms with
    | (post, (comments, reposts, quotes, likes, dislikes, views)) =>
      { meta := post, comments := comments, reposts := reposts, quotes := quotes,
        likes := likes, dislikes := dislikes, views := views }

/-- `CacheManager.get_global_timeline(start=0, end=19)`: `ZREVRANGE` the
global timeline, return `[]` when the id range is empty, otherwise the
batched post views. -/
noncomputable def get_global_timeline (st : CacheState) (start stop : Int) : List PostView :=
  let gt_post_ids := zrevrange st.globalTimeline start stop
  if gt_post_ids = [] then [] else get_posts st gt_post_ids

/-- `CacheManager.get_home_timeline(user_id, start=0, end=19)`: `LRANGE`
the user's home timeline; when the slice is empty fall back to the global
timeline over the same `(start, stop)` window. -/
noncomputable def get_home_timeline (st : CacheState) (user_id : String) (start stop : Int) :
    List PostView :=
  let ht_post_ids := lrange (st.homeTimelines user_id) start stop
  if ht_post_ids = [] then get_global_timeline st start stop
  else get_posts st ht_post_ids

/-- `CacheManager.update_post_stats(post_id, key, value)`, lines 95-111.
Line 97's `HSET` of the counter field executes and persists.  Line 100's
`HGETALL` then returns str keys and values (the client has
`decode_responses=True`), and the hash is non-empty — it holds at least
the field just written — so line 101's dict comprehension calls
`k.decode()` on a str and raises `AttributeError`: the call always
propagates that error with only the counter overwrite applied.  The
`created_at` read, the score computation, the `ZADD` and the
`ZREMRANGEBYRANK` of lines 104-111 sit in the unreachable continuation
(kept below in the dead `.ok` branch).  The result is the state as the
store holds it afterwards paired with the call's outcome. -/
noncomputable def update_post_stats (st : CacheState) (post_id key : String) (value : Int)
    (now : Int) : CacheState × Except String Unit :=
  let stats1 : String → String → Option Int := fun p =>
    if p = post_id then (fun k => if k = key then some value else st.postStats p k)
    else st.postStats p
  let st1 : CacheState := { st with postStats := stats1 }
  match pyDecode (RedisReply.str key) with
  | .error e => (st1, .error e)
  | .ok _ =>
    let stats := stats1 post_id
    let created_at : Int := (st1.postTimestamp post_id).getD now
    let score := calculate_score stats (created_at : ℝ) (now : ℝ) 36 12
    let gt1 := zadd st1.globalTimeline post_id score
    let gt2 := zremrangebyrank gt1 0 180
    ({ st1 with globalTimeline := gt2 }, .ok ())

/-! ### Posts management -/

/-- `CacheManager.create_post(user_id, new_post)`, lines 145-168: build
`post_mapping`, drop the falsy values (`{k: v for k, v in ... if v}`)
and `HSET` the rest to `post_meta:{id}`.  The mapping holds the
`uuid.UUID` id and `datetime` timestamps, which redis-py refuses with
`DataError` while packing the command — before anything is written — and
the `except` block re-raises that as `ValueError`, so the global-timeline
add and the follower fan-out loop of the `try` body never run (they are
kept below in the dead success branch; the fan-out loop touches one
distinct `home_timeline:{f}` key per follower, hence the pointwise
update).  `Except.error` models the raise with no state written. -/
def create_post (st : CacheState) (user_id : String) (new_post : PostModel) (now : Int) :
    Except String CacheState :=
  let post_mapping : List (String × PyValue) :=
    [("id", PyValue.uuid new_post.id),
     ("created_at", PyValue.datetime new_post.created_at),
     ("updated_at", PyValue.datetime new_post.updated_at),
     ("author", PyValue.str user_id),
     ("body", PyValue.str new_post.body),
     ("scheduled_time", pyOptDatetime new_post.scheduled_time),
     ("images", PyValue.list new_post.images),
     ("video", pyOptStr new_post.video)]
  let kept := post_mapping.filter (fun kv => pyTruthy kv.2)
  if kept.all (fun kv => redisEncodable kv.2) then
    let meta : PostMeta :=
      { id := new_post.id, created_at := new_post.created_at,
        updated_at := new_post.updated_at, author := user_id, body := new_post.body,
        scheduled_time := new_post.scheduled_time, images := new_post.images,
        video := new_post.video }
    let st1 := { st with postMeta := fun p => if p = new_post.id then some meta else st.postMeta p }
    let st2 := add_post_to_gt st1 new_post.id now
    let fols := get_followers st2 user_id
    .ok { st2 with homeTimelines := fun u =>
        if u ∈ fols then ltrim (lpush (st2.homeTimelines u) new_post.id) 0 59
        else st2.homeTimelines u }
  else
    .error "Exceptions while creating post: DataError"

/-- `CacheManager.delete_post(post_id, user_id)`: `ZREM` from the global
timeline, `LREM` from every follower's home timeline and from the
author's own timeline, and delete the `post_meta:{id}` and
`post_stats:{id}` keys.  (The third `DELETE` argument is the literal key
`post_timestamp{post_id}`, which is not the `post_timestamp` hash, so
the timestamp field survives — reproduced faithfully.) -/
def delete_post (st : CacheState) (post_id user_id : String) : CacheState :=
  let st1 := { st with globalTimeline := zrem st.globalTimeline post_id }
  let fols := get_followers st1 user_id
  let st2 := { st1 with homeTimelines := fun u =>
      if u ∈ fols then lremAll (st1.homeTimelines u) post_id else st1.homeTimelines u }
  let st3 := { st2 with userTimelines := fun u =>
      if u = user_id then lremAll (st2.userTimelines u) post_id else st2.userTimelines u }
  { st3 with
    postMeta := fun p => if p = post_id then none else st3.postMeta p,
    postStats := fun p => if p = post_id then (fun _ => none) else st3.postStats p }

/-! ### Followers and followings management -/

/-- `CacheManager.add_follower(user_id, follower_id)`:
`SADD followers:{follower_id} user_id` and
`SADD followings:{user_id} follower_id` (no self-follow check at the
cache layer). -/
def add_follower (st : CacheState) (user_id follower_id : String) : CacheState :=
  { st with
    followers := fun u => if u = follower_id then insert user_id (st.followers u) else st.followers u,
    followings := fun u => if u = user_id then insert follower_id (st.followings u) else st.followings u }

/-- `CacheManager.remove_follower(user_id, follower_id)`:
`SREM followings:{user_id} follower_id` and
`SREM followers:{follower_id} user_id`; nothing else is touched. -/
def remove_follower (st : CacheState) (user_id follower_id : String) : CacheState :=
  { st with
    followings := fun u => if u = user_id then (st.followings u).erase follower_id else st.followings u,
    followers := fun u => if u = follower_id then (st.followers u).erase user_id else st.followers u }

/-- `FollowModel.save` (community_app/models.py): raises `ValueError`
("Users cannot follow themselves.") when the two related users carry the
same username, before the row is persisted.  `username` is the
authoritative store's user-id → username map. -/
def followModelSave (username : String → String) (follower_id following_id : String) :
    Option Unit :=
  if username follower_id = username following_id then none else some ()

/-- The `/follow` route (community_app/routes.py): `FollowModel.create`
(which runs `FollowModel.save` and its self-follow check) and only on
success `CacheManager.add_follower(user_id, follower_id)`.  `none`
models the raised `ValueError`: neither the relational row nor any cache
key was written. -/
def follow_route (username : String → String) (st : CacheState) (user_id follower_id : String) :
    Option CacheState :=
  match followModelSave username follower_id user_id with
  | none => none
  | some _ => some (add_follower st user_id follower_id)

/-! ### User profile management -/

/-- `CacheManager.delete_user_profile(user_id, username, email)`,
translated with its statement order kept: the first pipeline (which IS
executed) deletes the user's home timeline, author timeline, profile,
followers and followings keys and drops the index entries; only then is
the author timeline read back (now empty) to drive the post cascade, and
only then are the followers/followings sets read back (now empty) to
drive the membership cleanup, whose `SREM` commands are queued on a
pipeline that is never executed. -/
def delete_user_profile (st : CacheState) (user_id username email : String) : CacheState :=
  let st1 : CacheState := { st with
    homeTimelines := fun u => if u = user_id then [] else st.homeTimelines u,
    userTimelines := fun u => if u = user_id then [] else st.userTimelines u,
    userProfile := fun u => if u = user_id then none else st.userProfile u,
    followers := fun u => if u = user_id then ∅ else st.followers u,
    followings := fun u => if u = user_id then ∅ else st.followings u,
    profiles := st.profiles.erase user_id,
    usernames := fun k => if k = username then none else st.usernames k,
    emails := fun k => if k = email then none else st.emails k }
  let post_ids := lrange (st1.userTimelines user_id) 0 (-1)
  let st2 := post_ids.foldl (fun s p => delete_post s p user_id) st1
  let _followers := get_followers st2 user_id
  let _following := get_following st2 user_id
  st2

/-! ### Concrete states used by witnesses and counterexamples -/

/-- The empty cache: no keys at all. -/
def emptyState : CacheState where
  postMeta := fun _ => none
  postStats := fun _ _ => none
  postTimestamp := fun _ => none
  globalTimeline := []
  homeTimelines := fun _ => []
  userTimelines := fun _ => []
  followers := fun _ => ∅
  followings := fun _ => ∅
  userProfile := fun _ => none
  profiles := ∅
  usernames := fun _ => none
  emails := fun _ => none

/-- A stats hash with no fields set. -/
def zeroStats : String → Option Int := fun _ => none

/-- A `PostModel` row used by the fan-out failing input. -/
def fanoutPost : PostModel :=
  { id := "post1", created_at := 0, updated_at := 0, body := "hello",
    scheduled_time := none, images := [], video := none }

/-- A cache in which user `fan` follows user `author`. -/
def fanoutState : CacheState :=
  { emptyState with followers := fun u => if u = "author" then {"fan"} else ∅ }

/-- A cache whose global timeline holds a single (hence highest-scored)
member. -/
def trimState : CacheState :=
  { emptyState with globalTimeline := [("top", (5 : ℝ))] }

/-- Metadata of the post the cascade-delete failing input uses. -/
def cascadeMeta : PostMeta :=
  { id := "post1", created_at := 0, updated_at := 0, author := "victim", body := "b",
    scheduled_time := none, images := [], video := none }

/-- A cache in which `victim` authored `post1` (listed in the author
timeline) and is followed by `fanA`. -/
def cascadeState : CacheState :=
  { emptyState with
    postMeta := fun p => if p = "post1" then some cascadeMeta else none,
    userTimelines := fun u => if u = "victim" then ["post1"] else [],
    followers := fun u => if u = "victim" then {"fanA"} else ∅,
    followings := fun u => if u = "fanA" then {"victim"} else ∅,
    userProfile := fun u => if u = "victim" then some [("username", "victim")] else none,
    usernames := fun k => if k = "victim" then some "victim" else none,
    emails := fun k => if k = "v@example.com" then some "1" else none }

/-- A cache in which `post1` has 5 stored likes. -/
def overwriteState : CacheState :=
  { emptyState with
    postStats := fun p =>
      if p = "post1" then (fun k => if k = "likes" then some 5 else none)
      else fun _ => none }

/-- Metadata of the post of the stale-home-timeline counterexample. -/
def unfollowPostMeta : PostMeta :=
  { id := "post1", created_at := 0, updated_at := 0, author := "bob", body := "b",
    scheduled_time := none, images := [], video := none }

/-- A cache in which `alice` follows `bob` and `bob`'s post `post1` sits
in `alice`'s home timeline. -/
def unfollowState : CacheState :=
  { emptyState with
    postMeta := fun p => if p = "post1" then some unfollowPostMeta else none,
    homeTimelines := fun u => if u = "alice" then ["post1"] else [],
    followings := fun u => if u = "alice" then {"bob"} else ∅,
    followers := fun u => if u = "bob" then {"alice"} else ∅ }

/-- Metadata of post `postB` in the stats-misbinding failing input. -/
def zipMetaB : PostMeta :=
  { id := "postB", created_at := 0, updated_at := 0, author := "bob", body := "b",
    scheduled_time := none, images := [], video := none }

/-- A cache where `postA` has stats (7 likes) but no metadata, while
`postB` has metadata and 1 like. -/
def zipState : CacheState :=
  { emptyState with
    postMeta := fun p => if p = "postB" then some zipMetaB else none,
    postStats := fun p =>
      if p = "postA" then (fun k => if k = "likes" then some 7 else none)
      else if p = "postB" then (fun k => if k = "likes" then some 1 else none)
      else fun _ => none }

/-! ### Helper lemmas -/

lemma add_post_to_gt_followers (st : CacheState) (p : String) (n : Int) :
    (add_post_to_gt st p n).followers = st.followers := by
  unfold add_post_to_gt
  dsimp only
  split <;> rfl

lemma mem_ltrim_lpush (x : String) (l : List String) : x ∈ ltrim (lpush l x) 0 59 := by
  have h : ltrim (lpush l x) 0 59 = x :: l.take 59 := by
    unfold ltrim lrange lpush
    norm_num
    rw [show Int.toNat 60 = 59 + 1 from rfl, List.take_succ_cons]
  rw [h]
  exact List.mem_cons_self _ _

lemma lrange_nil (s e : Int) : lrange ([] : List α) s e = [] := by
  simp [lrange]

lemma length_zsorted (l : List (String × ℝ)) : (zsorted l).length = l.length := by
  simp [zsorted, List.length_insertionSort]

lemma length_zadd_le (l : List (String × ℝ)) (m : String) (s : ℝ) :
    (zadd l m s).length ≤ l.length + 1 := by
  unfold zadd
  split
  · simp
  · simp

lemma zremrangebyrank_0_180 (l : List (String × ℝ)) (h : l.length ≤ 181) :
    zremrangebyrank l 0 180 = [] := by
  unfold zremrangebyrank
  norm_num
  rw [length_zsorted]
  omega

/-! ### Claim theorems -/

/-- C1: `create_post` never completes: the `post_meta` mapping always
keeps its `uuid.UUID` id (a truthy value), redis-py raises `DataError`
while packing the `HSET`, and the `except` block re-raises `ValueError`
— all before `_add_post_to_gt` and the follower loop.  So no publish
ever reaches the global timeline or any follower's home timeline, and
the claimed fan-out completeness is behavior the program cannot
perform. -/
theorem create_post_always_raises (st : CacheState) (user_id : String)
    (new_post : PostModel) (now : Int) :
    create_post st user_id new_post now
      = Except.error "Exceptions while creating post: DataError" := rfl

/-- C5: Self-follow rejection.  The `/follow` route first persists the
relational `FollowModel`, whose `save` raises `ValueError` when the two
users' usernames coincide — as they do for `follow(x, x)` — so the call
errors out before `CacheManager.add_follower` runs: no follower set,
following set or any other cache state is modified (`none` models the
raised error with no resulting state). -/
theorem follow_route_rejects_self_follow (username : String → String) (st : CacheState)
    (x : String) : follow_route username st x x = none := by
  unfold follow_route followModelSave
  simp

/-- C6 counterexample: `alice` follows `bob` and `bob`'s post `post1` is
in `alice`'s home timeline; after `remove_follower` (the whole cache-side
unfollow) the post of the unfollowed author is still there, against the
claim that unfollow purges the unfollowed party's posts from the former
follower's home timeline. -/
theorem remove_follower_stale_home_counterexample :
    "bob" ∈ unfollowState.followings "alice" ∧
      (unfollowState.postMeta "post1").map PostMeta.author = some "bob" ∧
      "post1" ∈ (remove_follower unfollowState "alice" "bob").homeTimelines "alice" := by
  refine ⟨by decide, rfl, ?_⟩
  show "post1" ∈ unfollowState.homeTimelines "alice"
  decide

/-- C6 (amended): `remove_follower(a, b)` removes the membership from
both directional follow sets (`b` from `followings:{a}`, `a` from
`followers:{b}`) and touches nothing else: in particular every home
timeline is left unchanged, so posts of the unfollowed author may remain
in the former follower's home timeline. -/
theorem remove_follower_removes_edges_only (st : CacheState) (a b : String) :
    (remove_follower st a b).followings a = (st.followings a).erase b ∧
      (remove_follower st a b).followers b = (st.followers b).erase a ∧
      ∀ u, (remove_follower st a b).homeTimelines u = st.homeTimelines u := by
  refine ⟨?_, ?_, fun u => rfl⟩ <;> simp [remove_follower]

/-- C7: Home-timeline fallback equality.  When a user's home timeline is
empty, `get_home_timeline` returns exactly `get_global_timeline` over the
same `(start, stop)` window. -/
theorem get_home_timeline_fallback (st : CacheState) (user_id : String) (start stop : Int)
    (h : st.homeTimelines user_id = []) :
    get_home_timeline st user_id start stop = get_global_timeline st start stop := by
  simp [get_home_timeline, h, lrange_nil]

/-- C7 witness: a fresh user of the empty cache reads the global
timeline through the fallback at the default `(0, 19)` window. -/
theorem get_home_timeline_fallback_witness :
    get_home_timeline emptyState "newcomer" 0 19 = get_global_timeline emptyState 0 19 :=
  get_home_timeline_fallback emptyState "newcomer" 0 19 rfl

/-- C2: `update_post_stats` never reaches its sorted-set code.  After
the line-97 `HSET` the stats hash is non-empty, and with
`decode_responses=True` line 101 calls `.decode()` on str values and
raises `AttributeError`, so the `ZADD` and the
`ZREMRANGEBYRANK global_timeline 0 180` of lines 110-111 are
unreachable: every engagement event leaves the global timeline exactly
as it was and propagates the error — no insert, no upsert, no trim ever
happens, against the claimed keep-the-top-ranked trimming.  (Had those
lines run, the rank range `0..180` would remove the 181 lowest-ranked
members, not keep the top: see `zremrangebyrank_0_180`.) -/
theorem update_post_stats_never_touches_global_timeline (st : CacheState)
    (post_id key : String) (value : Int) (now : Int) :
    (update_post_stats st post_id key value now).1.globalTimeline = st.globalTimeline ∧
      (update_post_stats st post_id key value now).2
        = Except.error "AttributeError: str object has no attribute decode" :=
  ⟨rfl, rfl⟩

/-- C3: `delete_user_profile` deletes the author-timeline, followers and
followings keys in its first (executed) pipeline and only afterwards
reads them back, so the post cascade and the cross-user membership
cleanup run over empty collections (and the cleanup `SREM`s are queued on
a never-executed pipeline): after deleting `victim`, the authored post's
metadata still exists and `victim` still sits in `fanA`'s followings. -/
theorem delete_user_profile_cascade_misses :
    (delete_user_profile cascadeState "victim" "victim" "v@example.com").postMeta "post1"
        = some cascadeMeta ∧
      "victim" ∈ (delete_user_profile cascadeState "victim" "victim" "v@example.com").followings "fanA" := by
  constructor
  · rfl
  · decide

/-- C4 counterexample: with 5 likes stored, `update_post_stats` called
with value 3 leaves the counter at 3, not at 5 + 3 — a plain `HSET`
overwrite, not the store's atomic increment — and then raises
`AttributeError` instead of recomputing any score or repositioning the
post (the global timeline is untouched). -/
theorem update_post_stats_overwrite_counterexample :
    overwriteState.postStats "post1" "likes" = some 5 ∧
      (update_post_stats overwriteState "post1" "likes" 3 0).1.postStats "post1" "likes" = some 3 ∧
      (update_post_stats overwriteState "post1" "likes" 3 0).1.postStats "post1" "likes" ≠ some (5 + 3) ∧
      (update_post_stats overwriteState "post1" "likes" 3 0).2
        = Except.error "AttributeError: str object has no attribute decode" ∧
      (update_post_stats overwriteState "post1" "likes" 3 0).1.globalTimeline
        = overwriteState.globalTimeline := by
  refine ⟨rfl, rfl, ?_, rfl, rfl⟩
  have h : (update_post_stats overwriteState "post1" "likes" 3 0).1.postStats "post1" "likes"
      = some 3 := rfl
  rw [h]
  decide

/-- C4 (amended): `update_post_stats(post_id, key, value)` OVERWRITES
the named counter with the supplied value (the new stored value is
`value` whatever was stored before — a blind `HSET`, not the store's
atomic increment) and leaves the other counter fields untouched; it then
always raises `AttributeError` (line 101 calls `.decode()` on the str
values that `decode_responses=True` already decoded), so no score is
recomputed and the global timeline is never modified: only the counter
overwrite persists. -/
theorem update_post_stats_blind_overwrite (st : CacheState) (post_id key : String)
    (value : Int) (now : Int) :
    (update_post_stats st post_id key value now).1.postStats post_id key = some value ∧
      (∀ k, k ≠ key →
        (update_post_stats st post_id key value now).1.postStats post_id k
          = st.postStats post_id k) ∧
      (update_post_stats st post_id key value now).1.globalTimeline = st.globalTimeline ∧
      (update_post_stats st post_id key value now).2
        = Except.error "AttributeError: str object has no attribute decode" := by
  refine ⟨?_, ?_, rfl, rfl⟩
  · simp [update_post_stats, pyDecode]
  · intro k hk
    simp [update_post_stats, pyDecode, hk]

/-- C8: `_get_posts` filters out the ids whose metadata hash is missing
BEFORE zipping the surviving metadata with the stats fetched for ALL the
requested ids, so when a metadata entry is missing the later posts are
bound to the counters of EARLIER ids: here the one returned view (for
`postB`) carries `postA`'s 7 likes although `postB` stores 1 like.  (The
soft drop of the missing post and the zero-default for missing counters
do work as claimed.) -/
theorem get_posts_misbinds_stats :
    zipState.postStats "postB" "likes" = some 1 ∧
      get_posts zipState ["postA", "postB"] =
        [{ meta := zipMetaB, comments := 0, reposts := 0, quotes := 0, likes := 7,
            dislikes := 0, views := 0 }] ∧
      (7 : Int) ≠ 1 := by
  exact ⟨rfl, rfl, by decide⟩

lemma score_shape_strict_anti (E a1 a2 : ℝ) (hE : 0 ≤ E) (h : a1 < a2) :
    E * Real.exp (-a2 / 36) + 10 * Real.exp (-a2 / 12)
      < E * Real.exp (-a1 / 36) + 10 * Real.exp (-a1 / 12) := by
  have hd : Real.exp (-a2 / 36) ≤ Real.exp (-a1 / 36) := Real.exp_le_exp.mpr (by linarith)
  have hb : Real.exp (-a2 / 12) < Real.exp (-a1 / 12) := Real.exp_lt_exp.mpr (by linarith)
  have t1 := mul_le_mul_of_nonneg_left hd hE
  have t2 := mul_lt_mul_of_pos_left hb (show (0 : ℝ) < 10 by norm_num)
  linarith

/-- C9: Score formula correctness.  With the default `half_life = 36` and
`boost_factor = 12` (as `update_post_stats` calls it), `calculate_score`
equals `ln(1 + 5·comments + 3·reposts + 4·quotes + 2·likes + 0.5·views) ·
exp(-age_hours/36) + 10 · exp(-age_hours/12)` with
`age_hours = (now - created_at)/3600`; the `dislikes` counter has no
effect on the result; and for non-negative counters the logarithm's
operand is at least `1 > 0`, so the score is a well-defined finite real
(the model of "always returns a finite float"). -/
theorem calculate_score_formula (stats : String → Option Int) (created_at now : ℝ)
    (hc : 0 ≤ (stats "comments").getD 0) (hr : 0 ≤ (stats "reposts").getD 0)
    (hq : 0 ≤ (stats "quotes").getD 0) (hl : 0 ≤ (stats "likes").getD 0)
    (hv : 0 ≤ (stats "views").getD 0) (_hnow : created_at ≤ now) :
    calculate_score stats created_at now 36 12 =
        Real.log (1 + 5 * (((stats "comments").getD 0 : Int) : ℝ)
            + 3 * (((stats "reposts").getD 0 : Int) : ℝ)
            + 4 * (((stats "quotes").getD 0 : Int) : ℝ)
            + 2 * (((stats "likes").getD 0 : Int) : ℝ)
            + 0.5 * (((stats "views").getD 0 : Int) : ℝ))
          * Real.exp (-((now - created_at) / 3600) / 36)
          + 10 * Real.exp (-((now - created_at) / 3600) / 12) ∧
      (∀ d, calculate_score (fun k => if k = "dislikes" then d else stats k) created_at now 36 12
          = calculate_score stats created_at now 36 12) ∧
      0 < 1 + 5 * (((stats "comments").getD 0 : Int) : ℝ)
          + 3 * (((stats "reposts").getD 0 : Int) : ℝ)
          + 4 * (((stats "quotes").getD 0 : Int) : ℝ)
          + 2 * (((stats "likes").getD 0 : Int) : ℝ)
          + 0.5 * (((stats "views").getD 0 : Int) : ℝ) := by
  have hc' : (0 : ℝ) ≤ (((stats "comments").getD 0 : Int) : ℝ) := by exact_mod_cast hc
  have hr' : (0 : ℝ) ≤ (((stats "reposts").getD 0 : Int) : ℝ) := by exact_mod_cast hr
  have hq' : (0 : ℝ) ≤ (((stats "quotes").getD 0 : Int) : ℝ) := by exact_mod_cast hq
  have hl' : (0 : ℝ) ≤ (((stats "likes").getD 0 : Int) : ℝ) := by exact_mod_cast hl
  have hv' : (0 : ℝ) ≤ (((stats "views").getD 0 : Int) : ℝ) := by exact_mod_cast hv
  refine ⟨?_, ?_, by linarith⟩
  · simp only [calculate_score, scores_getter]
    ring_nf
  · intro d
    rfl

/-- C9 witness: at the empty stats hash, recording any number of
dislikes leaves the score unchanged. -/
theorem calculate_score_formula_witness :
    calculate_score (fun k => if k = "dislikes" then some 99 else zeroStats k) 0 3600 36 12
      = calculate_score zeroStats 0 3600 36 12 :=
  (calculate_score_formula zeroStats 0 3600 (by decide) (by decide) (by decide) (by decide)
    (by decide) (by norm_num)).2.1 (some 99)

/-- C10: Score monotonic decay in age.  For fixed non-negative counters
and fixed `created_at`, the score at a later `now2` is at most — indeed
strictly below — the score at an earlier `now1`: the engagement term is
non-negative and multiplied by a decreasing exponential, and the
freshness boost is strictly decreasing. -/
theorem calculate_score_monotone_decay (stats : String → Option Int)
    (created_at now1 now2 : ℝ)
    (hc : 0 ≤ (stats "comments").getD 0) (hr : 0 ≤ (stats "reposts").getD 0)
    (hq : 0 ≤ (stats "quotes").getD 0) (hl : 0 ≤ (stats "likes").getD 0)
    (hv : 0 ≤ (stats "views").getD 0) (h12 : now1 < now2) :
    calculate_score stats created_at now2 36 12 ≤ calculate_score stats created_at now1 36 12 ∧
      calculate_score stats created_at now2 36 12 < calculate_score stats created_at now1 36 12 := by
  have hc' : (0 : ℝ) ≤ (((stats "comments").getD 0 : Int) : ℝ) := by exact_mod_cast hc
  have hr' : (0 : ℝ) ≤ (((stats "reposts").getD 0 : Int) : ℝ) := by exact_mod_cast hr
  have hq' : (0 : ℝ) ≤ (((stats "quotes").getD 0 : Int) : ℝ) := by exact_mod_cast hq
  have hl' : (0 : ℝ) ≤ (((stats "likes").getD 0 : Int) : ℝ) := by exact_mod_cast hl
  have hv' : (0 : ℝ) ≤ (((stats "views").getD 0 : Int) : ℝ) := by exact_mod_cast hv
  have key : calculate_score stats created_at now2 36 12
      < calculate_score stats created_at now1 36 12 := by
    simp only [calculate_score, scores_getter]
    apply score_shape_strict_anti
    · apply Real.log_nonneg
      linarith
    · linarith
  exact ⟨le_of_lt key, key⟩

/-- C10 witness: one hour after creation the empty-stats score has
strictly dropped below its score at creation time. -/
theorem calculate_score_monotone_decay_witness :
    calculate_score zeroStats 0 3600 36 12 < calculate_score zeroStats 0 0 36 12 :=
  (calculate_score_monotone_decay zeroStats 0 0 3600 (by decide) (by decide) (by decide)
    (by decide) (by decide) (by norm_num)).2

end Kronk
